import Mathlib

/-!
Shallow embedding of the subtitle alignment engine of this repository
(src/backend/app.py and src/backend/ai_model.py), together with theorems
checking the natural-language specification against it.

Conventions of the embedding:
* Python floats are modelled as exact rationals. All numeric literals of
  the source (0.7, 0.5, 8.0, ...) are exact decimal rationals.
* Python strings are Lean String values; Python substring tests
  (the `in` operator), str.lower(), str.strip(), str.split() and
  str.isdigit() are modelled character-by-character below, restricted to
  their ASCII behaviour (the phrase tables of the source are ASCII on the
  English side; CJK characters are unaffected by lower/strip/isdigit).
* Fallible Python conversions (int(...), float(...)) are modelled as
  Option-returning parsers; the bare try/except fallbacks of the source
  become the corresponding none branches.
* Python round(x, n) is round-half-to-even, modelled exactly on rationals.
-/

/- The arithmetic of ℚ from the standard library is marked irreducible,
which blocks evaluation of the concrete scoring computations below; the
proofs in this file evaluate them, so reducibility is restored locally. -/
attribute [local semireducible] Rat.add Rat.mul Rat.inv Rat.sub Rat.ofScientific

/-- The whitespace characters recognised by Python str.strip and `\s`. -/
def pySpace (c : Char) : Bool :=
  c = ' ' ∨ c = '\t' ∨ c = '\n' ∨ c = '\r' ∨ c = '\x0b' ∨ c = '\x0c'

/-- Python str.strip() on a character list: drop whitespace at both ends. -/
def pyStripChars (cs : List Char) : List Char :=
  ((cs.dropWhile pySpace).reverse.dropWhile pySpace).reverse

/-- Python str.strip() on strings. -/
def pyStrip (s : String) : String :=
  ⟨pyStripChars s.toList⟩

/-- Python str.lower(), ASCII fragment (the source only lowercases English
text; CJK characters are fixed points of lower()). -/
def pyLower (s : String) : String :=
  ⟨s.toList.map Char.toLower⟩

/-- Is `needle` a prefix of `hay`? (Building block of the substring test.) -/
def isPrefixCh : List Char → List Char → Bool
  | [], _ => true
  | _ :: _, [] => false
  | a :: as, b :: bs => a = b && isPrefixCh as bs

/-- Does `hay` contain `needle` as a contiguous substring? Models the
Python expression `needle in hay` on strings. -/
def containsSubList (hay needle : List Char) : Bool :=
  match hay with
  | [] => needle.isEmpty
  | _ :: rest => isPrefixCh needle hay || containsSubList rest needle

/-- Python `needle in hay` for strings. -/
def containsSub (hay needle : String) : Bool :=
  containsSubList hay.toList needle.toList

/-- Python str.split(sep) for a one-character separator: split at every
occurrence, keeping empty segments. -/
def splitOnChar (sep : Char) : List Char → List (List Char)
  | [] => [[]]
  | c :: rest =>
    match splitOnChar sep rest with
    | [] => [[]]
    | g :: gs => if c = sep then [] :: g :: gs else (c :: g) :: gs

/-- Everything before the first occurrence of `pat` (the whole list when
`pat` does not occur): Python `s.split(pat)[0]` for a non-empty `pat`. -/
def takeBeforeSeq (pat : List Char) : List Char → List Char
  | [] => []
  | c :: rest =>
    if isPrefixCh pat (c :: rest) then [] else c :: takeBeforeSeq pat rest

/-- Python str.isdigit() restricted to ASCII digits: non-empty and all
digits. -/
def pyIsdigitChars (cs : List Char) : Bool :=
  !cs.isEmpty && cs.all Char.isDigit

/-- Number of words of Python str.split() with no argument (split on runs
of whitespace, ignoring leading/trailing runs). The Bool argument records
whether the scan is currently inside a word. -/
def wordCountAux : Bool → List Char → ℕ
  | _, [] => 0
  | inWord, c :: rest =>
    if pySpace c then wordCountAux false rest
    else (if inWord then 0 else 1) + wordCountAux true rest

/-- len(text.split()) in Python. -/
def wordCount (s : String) : ℕ :=
  wordCountAux false s.toList

/-- An optional leading sign, as accepted by Python int() and float(). -/
def readSign : List Char → ℤ × List Char
  | '+' :: rest => (1, rest)
  | '-' :: rest => (-1, rest)
  | cs => (1, cs)

/-- The numeric value of a run of ASCII digits. -/
def digitsToNat (ds : List Char) : ℕ :=
  ds.foldl (fun a c => 10 * a + (c.toNat - 48)) 0

/-- Python int(s) on a stripped character list: optional sign then one or
more digits and nothing else. (Digit-group underscores and non-ASCII
digits, which CPython also accepts, are outside this model; no timestamp
in scope uses them.) -/
def pyIntChars (cs : List Char) : Option ℤ :=
  let cs0 := pyStripChars cs
  let sr := readSign cs0
  let ds := sr.2.takeWhile Char.isDigit
  let rest := sr.2.dropWhile Char.isDigit
  if !ds.isEmpty && rest.isEmpty then some (sr.1 * digitsToNat ds) else none

/-- Python int(s). -/
def pyInt (s : String) : Option ℤ :=
  pyIntChars s.toList

/-- Python float(s) on a stripped character list: optional sign, a digit
string with an optional decimal point (at least one digit overall), and an
optional decimal exponent. (The special forms inf/infinity/nan and digit
underscores are outside this model; no timestamp in scope uses them.) -/
def pyFloatChars (cs : List Char) : Option ℚ :=
  let cs0 := pyStripChars cs
  let sr := readSign cs0
  let ipart := sr.2.takeWhile Char.isDigit
  let r1 := sr.2.dropWhile Char.isDigit
  let fr : List Char × List Char :=
    match r1 with
    | '.' :: rest => (rest.takeWhile Char.isDigit, rest.dropWhile Char.isDigit)
    | _ => ([], r1)
  if ipart.isEmpty ∧ fr.1.isEmpty then none
  else
    let mantissa : ℚ :=
      (digitsToNat ipart : ℚ) + (digitsToNat fr.1 : ℚ) / (10 : ℚ) ^ fr.1.length
    match fr.2 with
    | [] => some ((sr.1 : ℚ) * mantissa)
    | e :: rest =>
      if e = 'e' ∨ e = 'E' then
        let esr := readSign rest
        let eds := esr.2.takeWhile Char.isDigit
        let erest := esr.2.dropWhile Char.isDigit
        if !eds.isEmpty && erest.isEmpty then
          some ((sr.1 : ℚ) * mantissa * (10 : ℚ) ^ (esr.1 * (digitsToNat eds : ℤ)))
        else none
      else none

/-- Python float(s). -/
def pyFloat (s : String) : Option ℚ :=
  pyFloatChars s.toList

/-- The parsing phase shared by both copies of time_to_seconds
(src/backend/app.py lines 147-158 and src/backend/ai_model.py lines
113-129): replace every comma by a dot, split on colons, and require
exactly three fields parsed by int, int and float. Any failure is the
none branch (the source catches it and falls through to return 0). -/
def pyParseTime (s : String) : Option (ℤ × ℤ × ℚ) :=
  let t := s.toList.map (fun c => if c = ',' then '.' else c)
  match splitOnChar ':' t with
  | [p0, p1, p2] =>
    match pyIntChars p0, pyIntChars p1, pyFloatChars p2 with
    | some hours, some minutes, some seconds => some (hours, minutes, seconds)
    | _, _, _ => none
  | _ => none

/-- time_to_seconds of src/backend/app.py (lines 147-158); the copy in
src/backend/ai_model.py (lines 113-129) is the same function on string
input, its only extra steps being a str() coercion and a conditional
guard around the comma replacement. Parse failures return 0. -/
def time_to_seconds (time_str : String) : ℚ :=
  match pyParseTime time_str with
  | some (hours, minutes, seconds) => (hours : ℚ) * 3600 + (minutes : ℚ) * 60 + seconds
  | none => 0

/-- Python round-half-to-even of a rational to an integer. -/
def roundHalfEven (q : ℚ) : ℤ :=
  if q - (⌊q⌋ : ℚ) < 1 / 2 then ⌊q⌋
  else if q - (⌊q⌋ : ℚ) > 1 / 2 then ⌊q⌋ + 1
  else if ⌊q⌋ % 2 = 0 then ⌊q⌋ else ⌊q⌋ + 1

/-- Python round(x, ndigits) on exact rationals. CPython rounds the value
of the IEEE double nearest to x, so on a score whose exact rational form
is a halfway point (such as 0.615 at two digits) the two can differ by
one unit in the last place; the claims below therefore only assert facts
about the rounded confidence that hold on either side of such a halfway
point, never its exact digits there. -/
def pyRound (ndigits : ℕ) (q : ℚ) : ℚ :=
  (roundHalfEven (q * (10 : ℚ) ^ ndigits) : ℚ) / (10 : ℚ) ^ ndigits

/-! ## The SubtitleAI engine of src/backend/ai_model.py

The critical_phrases dict initialiser of the source is missing a comma
after the death entry (line 64), which is a Python syntax slip; the table
below follows the evident intent, keeping every entry in order. -/

/-- An apostrophe character, kept out of string literals. -/
def apos : String := ⟨[Char.ofNat 39]⟩

/-- critical_phrases of SubtitleAI.__init__ (ai_model.py lines 7-72). -/
def critical_phrases : List (String × List String) := [
  ("yes", ["是", "对的", "好的", "可以", "没错"]),
  ("no", ["不", "不是", "不要", "不行", "没有"]),
  ("look", ["看", "瞧", "看看", "看一下", "注视"]),
  ("ship", ["船", "帆船", "船只", "船舶", "舰船"]),
  ("big", ["大", "巨大", "很大", "大的", "庞大"]),
  ("why", ["为什么", "為何", "为啥", "为何", "何故"]),
  ("because", ["因为", "由於", "所以", "原因是"]),
  ("magic", ["神", "魔", "魔法", "神奇", "魔术"]),
  ("lamp", ["燈", "灯", "灯笼", "油灯"]),
  ("hello", ["你好", "您好", "嗨", "哈喽"]),
  ("thank you", ["谢谢", "感谢", "多谢", "谢谢你"]),
  ("sorry", ["对不起", "抱歉", "不好意思"]),
  ("okay", ["好", "可以", "行", "没问题", "好吧"]),
  ("please", ["请", "拜托", "求你了"]),
  ("what", ["什么", "啥", "何事", "干什么"]),
  ("where", ["哪里", "哪儿", "何处", "什么地方"]),
  ("when", ["什么时候", "何时", "几时"]),
  ("how", ["怎么", "如何", "怎样", "怎么样"]),
  ("who", ["谁", "何人", "什么人"]),
  ("good", ["好", "良好", "不错", "优秀", "棒"]),
  ("bad", ["坏", "不好", "糟糕", "差劲"]),
  ("happy", ["开心", "高兴", "快乐", "愉快"]),
  ("sad", ["伤心", "难过", "悲伤", "悲哀"]),
  ("beautiful", ["漂亮", "美丽", "好看", "优美"]),
  ("ugly", ["丑", "难看", "丑陋", "丑恶"]),
  ("love", ["爱", "喜欢", "爱情", "恋爱"]),
  ("hate", ["恨", "讨厌", "厌恶", "憎恨"]),
  ("want", ["要", "想要", "需要", "希望"]),
  ("have", ["有", "拥有", "具有", "具备"]),
  ("can", ["可以", "能", "能够", "会"]),
  ("cannot", ["不能", "不可以", "不会", "无法"]),
  ("will", ["会", "将要", "愿意", "打算"]),
  ("go", ["去", "走", "前往", "出发"]),
  ("come", ["来", "过来", "来到", "来临"]),
  ("see", ["看见", "看到", "见面", "见到"]),
  ("hear", ["听见", "听到", "听闻", "听说"]),
  ("say", ["说", "讲", "告诉", "说道"]),
  ("think", ["想", "思考", "认为", "觉得"]),
  ("know", ["知道", "了解", "认识", "明白"]),
  ("time", ["时间", "时候", "时刻", "时光"]),
  ("day", ["天", "日", "白天", "日子"]),
  ("night", ["晚上", "夜晚", "夜里", "晚间"]),
  ("water", ["水", "水分", "水域", "海水"]),
  ("fire", ["火", "火焰", "火灾", "火光"]),
  ("earth", ["土", "土地", "地球", "大地"]),
  ("air", ["空气", "天空", "大气", "空中"]),
  ("man", ["男人", "男子", "男士", "男性"]),
  ("woman", ["女人", "女子", "女士", "女性"]),
  ("child", ["孩子", "儿童", "小孩", "小朋友"]),
  ("friend", ["朋友", "友人", "好友", "伙伴"]),
  ("family", ["家庭", "家人", "家属", "亲人"]),
  ("home", ["家", "家庭", "家园", "家里"]),
  ("food", ["食物", "食品", "吃的", "饭菜"]),
  ("money", ["钱", "金钱", "货币", "资金"]),
  ("work", ["工作", "干活", "做事", "职业"]),
  ("life", ["生活", "生命", "人生", "生存"]),
  ("death", ["死亡", "死", "去世", "逝世"]),
  ("children", ["孩子", "儿童", "小朋友"]),
  ("learning", ["学", "学习", "学到"]),
  ("dear", ["亲爱的", "亲爱"]),
  ("unclear", ["不确定", "不清楚", "不明"]),
  ("aladdin", ["阿拉丁"]),
  ("princess", ["公主"]),
  ("story", ["故事", "说说", "讲述"])
]

/-- One semantic meaning group of SubtitleAI.__init__. -/
structure SemGroup where
  english : List String
  chinese : List String
  confidence : ℚ

/-- semantic_groups of SubtitleAI.__init__ (ai_model.py lines 75-111),
in insertion order (the scan below returns the first full match). -/
def semantic_groups : List SemGroup := [
  -- wish_better
  { english := ["wish ours was that fancy", ("i" ++ apos ++ "d be so happy if"), "want our ship to be better", "if only ours was", "hope ours was"],
    chinese := ["我們的船好破爛", "船如果那麼漂亮就好了", "希望我們的船更好", "要是我們的船也這樣", "真想我們的船也這麼好"],
    confidence := 0.9 },
  -- question_why
  { english := ["why is that", "because it looks better", "why", ("what" ++ apos ++ "s the reason"), "how come"],
    chinese := ["為什麼", "就因為它比較新", "原因是", "為何這樣", "怎麼回事"],
    confidence := 0.95 },
  -- ship_history
  { english := ["this boat has seen us through many storms", "it has been through storms", "survived many storms", "weather many storms"],
    chinese := ["這艘船帶我們渡過很多暴風雨", "經歷過很多風雨", "闖過很多暴風雨", "經歷無數風雨"],
    confidence := 0.85 },
  -- look_direction
  { english := ["hey look", "over there", "look at that", "check that out", "see there"],
    chinese := ["妳看", "看那裡", "快看", "瞧那邊", "看那邊"],
    confidence := 0.95 },
  -- comparison
  { english := ["better than", "worse than", "bigger than", "smaller than", "more than", "less than"],
    chinese := ["比...好", "比...差", "比...大", "比...小", "比...多", "比...少"],
    confidence := 0.8 },
  -- agreement
  { english := ["i agree", ("that" ++ apos ++ "s right"), "exactly", ("you" ++ apos ++ "re right"), "true"],
    chinese := ["我同意", "沒錯", "確實", "你說得對", "是的"],
    confidence := 0.9 },
  -- disagreement
  { english := ["i disagree", ("that" ++ apos ++ "s wrong"), "no way", "not true", "incorrect"],
    chinese := ["我不同意", "不對", "不可能", "不是真的", "錯誤"],
    confidence := 0.9 }
]

/-- One pass of re.sub for the pattern that removes a delimited chunk
(parentheses or square brackets): at an opening delimiter with a closing
delimiter somewhere ahead, drop everything through the first closing
delimiter; an opening delimiter with no closing delimiter ahead is kept,
as the regex cannot match there. The Bool is the skipping state. -/
def removeDelimAux (op cl : Char) : Bool → List Char → List Char
  | false, [] => []
  | false, c :: rest =>
    if c = op ∧ rest.any (fun x => x = cl) then removeDelimAux op cl true rest
    else c :: removeDelimAux op cl false rest
  | true, [] => []
  | true, c :: rest =>
    if c = cl then removeDelimAux op cl false rest
    else removeDelimAux op cl true rest

/-- re.sub of a non-greedy delimited chunk, as used by clean_text. -/
def removeDelim (op cl : Char) (cs : List Char) : List Char :=
  removeDelimAux op cl false cs

/-- re.sub of the leading speaker-name pattern (one or more capital
letters, a colon, then optional whitespace), anchored at the start. -/
def stripSpeaker (cs : List Char) : List Char :=
  let caps := cs.takeWhile (fun ch => 'A' ≤ ch ∧ ch ≤ 'Z')
  let rest := cs.drop caps.length
  match rest with
  | ':' :: after => if caps.isEmpty then cs else after.dropWhile pySpace
  | _ => cs

/-- re.sub collapsing every whitespace run into a single space. The Bool
records whether the scan is inside a whitespace run. -/
def collapseWsAux : Bool → List Char → List Char
  | _, [] => []
  | inRun, c :: rest =>
    if pySpace c then
      (if inRun then [] else [' ']) ++ collapseWsAux true rest
    else c :: collapseWsAux false rest

/-- clean_text of SubtitleAI (ai_model.py lines 165-180): strip speaker
names, parenthesised sound effects, music markers, bracketed text,
collapse whitespace and strip the ends. -/
def clean_text (text : String) : String :=
  if text = "" then ""
  else
    let cs := stripSpeaker text.toList
    let cs := removeDelim '(' ')' cs
    let cs := cs.filter (fun c => c ≠ '♪')
    let cs := removeDelim '[' ']' cs
    let cs := collapseWsAux false cs
    pyStrip ⟨cs⟩

/-- The counting loop shared by calculate_critical_score (ai_model.py
lines 182-197) and keyword_similarity (app.py lines 56-89): both walk a
phrase table accumulating (matches, possible) counters, where a phrase is
possible when it appears on either side and a match when it appears on
both. The first accumulator component is matches, the second possible. -/
def phraseLoop (eng_lower chi_text : String) :
    List (String × List String) → ℕ × ℕ → ℕ × ℕ
  | [], acc => acc
  | p :: rest, acc =>
    let has_eng := containsSub eng_lower p.1
    let has_chi := p.2.any (fun cw => containsSub chi_text cw)
    if has_eng || has_chi then
      if has_eng && has_chi then phraseLoop eng_lower chi_text rest (acc.1 + 1, acc.2 + 1)
      else phraseLoop eng_lower chi_text rest (acc.1, acc.2 + 1)
    else phraseLoop eng_lower chi_text rest acc

/-- calculate_critical_score of SubtitleAI (ai_model.py lines 182-197):
matches / max(possible, 1) over critical_phrases, case-insensitive on the
English side. -/
def calculate_critical_score (eng_text chi_text : String) : ℚ :=
  let mp := phraseLoop (pyLower eng_text) chi_text critical_phrases (0, 0)
  (mp.1 : ℚ) / ((max mp.2 1 : ℕ) : ℚ)

/-- calculate_semantic_score of SubtitleAI (ai_model.py lines 199-210):
the confidence of the first semantic group with a phrase hit on both
sides, else 0.1. -/
def semanticScan (eng_lower chi_text : String) : List SemGroup → ℚ
  | [] => 0.1
  | g :: rest =>
    if g.english.any (fun p => containsSub eng_lower p) &&
       g.chinese.any (fun p => containsSub chi_text p) then g.confidence
    else semanticScan eng_lower chi_text rest

/-- calculate_semantic_score of SubtitleAI. -/
def calculate_semantic_score (eng_text chi_text : String) : ℚ :=
  semanticScan (pyLower eng_text) chi_text semantic_groups

/-- calculate_structure_score of SubtitleAI (ai_model.py lines 212-237):
question parity, exclamation parity, and a word-to-character length-ratio
plausibility check, capped at 1. -/
def calculate_structure_score (eng_text chi_text : String) : ℚ :=
  let eng_is_question := containsSub eng_text "?"
  let chi_is_question := containsSub chi_text "？" || containsSub chi_text "?"
  let s1 : ℚ := if eng_is_question = chi_is_question then 0.3 else 0
  let eng_is_exclamation := containsSub eng_text "!"
  let chi_is_exclamation := containsSub chi_text "！" || containsSub chi_text "!"
  let s2 : ℚ := if eng_is_exclamation = chi_is_exclamation then 0.3 else 0
  let eng_words := wordCount eng_text
  let chi_chars := chi_text.toList.length
  let s3 : ℚ :=
    if 0 < eng_words ∧ 0 < chi_chars ∧
       (0.2 : ℚ) ≤ (eng_words : ℚ) / (chi_chars : ℚ) ∧
       (eng_words : ℚ) / (chi_chars : ℚ) ≤ 0.6 then 0.4 else 0
  min 1 (s1 + s2 + s3)

/-- calculate_content_similarity of SubtitleAI (ai_model.py lines
148-163): 60 percent critical phrases, 30 percent semantic groups,
10 percent structure, on the cleaned English text. -/
def calculate_content_similarity (eng_text chi_text : String) : ℚ :=
  let eng_text_clean := clean_text eng_text
  let critical_score := calculate_critical_score eng_text_clean chi_text
  let semantic_score := calculate_semantic_score eng_text_clean chi_text
  let structure_score := calculate_structure_score eng_text_clean chi_text
  critical_score * 0.6 + semantic_score * 0.3 + structure_score * 0.1

/-! ## Records and the two aligners -/

/-- One parsed subtitle cue, as produced by the parse_srt of app.py
(a dict with id, start and text; the end time is never read by either
aligner). -/
structure Cue where
  id : ℕ
  start : String
  text : String
  deriving DecidableEq, Inhabited

/-- The status classification of an alignment record. -/
inductive Status where
  | ALIGNED
  | REVIEW
  | MISALIGNED
  deriving DecidableEq, Inhabited

/-- The quality grade attached by api_align_subtitles of app.py. -/
inductive Quality where
  | EXCELLENT
  | VERY_GOOD
  | GOOD
  | FAIR
  | POOR
  deriving DecidableEq, Inhabited

/-- An alignment record of SubtitleAI.align_subtitles (ai_model.py lines
262-270): the chi_time and chinese fields hold the placeholder string
NO MATCH when there is no matched target cue. -/
structure AIRecord where
  sequence : ℕ
  eng_time : String
  chi_time : String
  english : String
  chinese : String
  confidence : ℚ
  status : Status
  deriving DecidableEq, Inhabited

/-- An alignment record of api_align_subtitles (app.py lines 253-262). -/
structure ApiRecord where
  sequence : ℕ
  eng_time : String
  chi_time : String
  english : String
  chinese : String
  confidence : ℚ
  status : Status
  quality : Quality
  deriving DecidableEq, Inhabited

/-- calculate_match_score of SubtitleAI (ai_model.py lines 131-146):
half timing proximity over a 5 second window, half content similarity,
clamped into the unit interval. -/
def calculate_match_score (eng_sub chi_sub : Cue) : ℚ :=
  let eng_time := time_to_seconds eng_sub.start
  let chi_time := time_to_seconds chi_sub.start
  let time_diff := |eng_time - chi_time|
  let timing_score := max 0 (1 - time_diff / 5)
  let score := timing_score * 0.5 + calculate_content_similarity eng_sub.text chi_sub.text * 0.5
  min 1 (max 0 score)

/-- The best-candidate loop of SubtitleAI.align_subtitles (ai_model.py
lines 244-251): best_score starts at 0 with no match and is replaced only
by a strictly greater candidate score. -/
def bestFoldAI (eng_sub : Cue) : List Cue → ℚ × Option Cue → ℚ × Option Cue
  | [], best => best
  | chi_sub :: rest, best =>
    let score := calculate_match_score eng_sub chi_sub
    bestFoldAI eng_sub rest (if score > best.1 then (score, some chi_sub) else best)

/-- The status branch of SubtitleAI.align_subtitles (ai_model.py lines
253-260); the MISALIGNED branch also discards the best match. -/
def ai_classify (best_score : ℚ) (best_match : Option Cue) : Status × Option Cue :=
  if best_score > 0.7 then (Status.ALIGNED, best_match)
  else if best_score > 0.4 then (Status.REVIEW, best_match)
  else (Status.MISALIGNED, none)

/-- Record assembly of SubtitleAI.align_subtitles (ai_model.py lines
262-270); the confidence is rounded to two decimals. -/
def mk_aligned_pair (eng_sub : Cue) (best : ℚ × Option Cue) : AIRecord :=
  let sm := ai_classify best.1 best.2
  { sequence := eng_sub.id
    eng_time := eng_sub.start
    chi_time := match sm.2 with | some c => c.start | none => "NO MATCH"
    english := eng_sub.text
    chinese := match sm.2 with | some c => c.text | none => "NO MATCH"
    confidence := pyRound 2 best.1
    status := sm.1 }

/-- align_subtitles of SubtitleAI (ai_model.py lines 239-272): one record
appended per English cue, in order; every Chinese cue is a candidate
(this engine has no search window). -/
def align_subtitles (english_subs chinese_subs : List Cue) : List AIRecord :=
  english_subs.map (fun eng_sub =>
    mk_aligned_pair eng_sub (bestFoldAI eng_sub chinese_subs (0, none)))

/-! ## The SmartSubtitleAI engine and API route of src/backend/app.py -/

/-- keyword_pairs of SmartSubtitleAI.keyword_similarity (app.py lines
58-74). -/
def keyword_pairs : List (String × List String) := [
  ("hello", ["你好", "您好", "嗨"]),
  ("thank", ["谢谢", "感谢", "多谢"]),
  ("sorry", ["对不起", "抱歉"]),
  ("yes", ["是", "是的", "对啊"]),
  ("no", ["不", "不是", "没有"]),
  ("good", ["好", "很好", "不错"]),
  ("bad", ["坏", "不好", "糟糕"]),
  ("big", ["大", "很大", "大型"]),
  ("small", ["小", "很小", "小型"]),
  ("love", ["爱", "喜欢", "爱着"]),
  ("family", ["家庭", "家人", "家"]),
  ("friend", ["朋友", "好友", "友人"]),
  ("school", ["学校", "上学", "校园"]),
  ("time", ["时间", "时候", "时光"]),
  ("dream", ["梦想", "梦", "幻想"])
]

/-- keyword_similarity of SmartSubtitleAI (app.py lines 56-89): the same
matches / max(total, 1) loop as calculate_critical_score, over
keyword_pairs. -/
def keyword_similarity (eng_text chi_text : String) : ℚ :=
  let mp := phraseLoop (pyLower eng_text) chi_text keyword_pairs (0, 0)
  (mp.1 : ℚ) / ((max mp.2 1 : ℕ) : ℚ)

/-- The external embedding backend of SmartSubtitleAI.semantic_similarity:
given two texts it either returns a similarity value or fails (none models
the raised exception of the transformers call). -/
abbrev Provider : Type := String → String → Option ℚ

/-- semantic_similarity of SmartSubtitleAI (app.py lines 47-54): the
provider value on success; on any exception the keyword fallback score is
substituted and no exception escapes. -/
def semantic_similarity (p : Provider) (text1 text2 : String) : ℚ :=
  match p text1 text2 with
  | some v => v
  | none => keyword_similarity text1 text2

/-- The per-candidate combined score of api_align_subtitles (app.py lines
226-236): 70 percent semantic similarity, 30 percent timing proximity
over an 8 second window. -/
def combined_score (p : Provider) (eng_sub chi_sub : Cue) : ℚ :=
  let semantic_score := semantic_similarity p eng_sub.text chi_sub.text
  let eng_time := time_to_seconds eng_sub.start
  let chi_time := time_to_seconds chi_sub.start
  let time_diff := |eng_time - chi_time|
  let timing_score := max 0 (1 - time_diff / 8)
  semantic_score * 0.7 + timing_score * 0.3

/-- The best-candidate loop of api_align_subtitles (app.py lines
223-240), over the candidate index range; chinese_subs[chi_idx] is
modelled with getD, the source indices being in range. -/
def bestFoldApp (p : Provider) (eng_sub : Cue) (chinese_subs : List Cue) :
    List ℕ → ℚ × Option Cue → ℚ × Option Cue
  | [], best => best
  | chi_idx :: rest, best =>
    let chi_sub := chinese_subs.getD chi_idx default
    let score := combined_score p eng_sub chi_sub
    bestFoldApp p eng_sub chinese_subs rest
      (if score > best.1 then (score, some chi_sub) else best)

/-- The status and quality branch of api_align_subtitles (app.py lines
242-251). Unlike the ai_model.py engine, this branch does not clear the
best match on MISALIGNED. -/
def app_classify (best_score : ℚ) : Status × Quality :=
  if best_score > 0.7 then
    (Status.ALIGNED,
      if best_score > 0.9 then Quality.EXCELLENT
      else if best_score > 0.8 then Quality.VERY_GOOD
      else Quality.GOOD)
  else if best_score > 0.5 then (Status.REVIEW, Quality.FAIR)
  else (Status.MISALIGNED, Quality.POOR)

/-- Record assembly of api_align_subtitles (app.py lines 253-262); the
confidence is rounded to three decimals. -/
def mk_api_record (eng_sub : Cue) (best : ℚ × Option Cue) : ApiRecord :=
  let sq := app_classify best.1
  { sequence := eng_sub.id
    eng_time := eng_sub.start
    chi_time := match best.2 with | some c => c.start | none => "NO MATCH"
    english := eng_sub.text
    chinese := match best.2 with | some c => c.text | none => "NO MATCH"
    confidence := pyRound 3 best.1
    status := sq.1
    quality := sq.2 }

/-- The body of the inner loop of api_align_subtitles (app.py lines
214-262) for one English index: search window max(0, i - 15) to
min(len(chinese_subs), i + 15) (the Nat subtraction i - 15 is exactly
max(0, i - 15)), best-candidate scan, classification and record
assembly. -/
def alignOne (p : Provider) (english_subs chinese_subs : List Cue)
    (eng_idx : ℕ) : ApiRecord :=
  let eng_sub := english_subs.getD eng_idx default
  let search_start := eng_idx - 15
  let search_end := min chinese_subs.length (eng_idx + 15)
  mk_api_record eng_sub
    (bestFoldApp p eng_sub chinese_subs
      (List.range' search_start (search_end - search_start)) (0, none))

/-- The double batching loop of api_align_subtitles (app.py lines
208-265): the outer loop is range(0, len(english_subs), 20) with
batch_size 20 (the gc.collect call between batches has no observable
effect on the result), the inner loop covers range(i, min(i + 20, len)).
range(a, b) is List.range' a (b - a), and range(0, n, 20) has
(n + 19) / 20 elements. -/
def apiResults (p : Provider) (english_subs chinese_subs : List Cue) :
    List ApiRecord :=
  (List.range' 0 ((english_subs.length + 20 - 1) / 20) 20).flatMap (fun i =>
    (List.range' i (min (i + 20) english_subs.length - i)).map
      (alignOne p english_subs chinese_subs))

/-- Python str.join with a single space, as used for the cue text. -/
def joinWithSpace : List (List Char) → List Char
  | [] => []
  | [x] => x
  | x :: y :: rest => x ++ ' ' :: joinWithSpace (y :: rest)

/-- parse_srt of app.py (lines 93-129), the copy used by the API route:
a sequence-number line followed by a timestamp line containing an arrow
opens a cue; the following non-empty lines are its text; cues with no
text lines are skipped. The while loop is modelled with a fuel argument;
the loop index strictly grows every iteration, so fuel equal to the
number of lines plus one never runs out. -/
def parse_srt_loop (lines : List (List Char)) :
    ℕ → ℕ → List Cue → List Cue
  | 0, _, subs => subs
  | fuel + 1, i, subs =>
    if i < lines.length then
      let line := pyStripChars (lines.getD i [])
      if pyIsdigitChars line then
        if i + 1 < lines.length then
          let time_line := pyStripChars (lines.getD (i + 1) [])
          if containsSubList time_line ['-', '-', '>'] then
            let text_lines :=
              ((lines.drop (i + 2)).takeWhile
                (fun l => !(pyStripChars l).isEmpty)).map pyStripChars
            let j := i + 2 + text_lines.length
            let subs1 :=
              if !text_lines.isEmpty then
                subs ++ [{ id := subs.length + 1
                           start := ⟨takeBeforeSeq [' ', '-', '-', '>', ' '] time_line⟩
                           text := ⟨joinWithSpace text_lines⟩ }]
              else subs
            parse_srt_loop lines fuel j subs1
          else parse_srt_loop lines fuel (i + 1) subs
        else parse_srt_loop lines fuel (i + 1) subs
      else parse_srt_loop lines fuel (i + 1) subs
    else subs

/-- parse_srt of app.py (lines 93-129): strip the content, split it into
lines, and run the cue-collecting loop from index 0. -/
def parse_srt (content : String) : List Cue :=
  let lines := splitOnChar '\n' (pyStripChars content.toList)
  parse_srt_loop lines (lines.length + 1) 0 []

/-- api_align_subtitles of app.py (lines 188-287), reduced to its
observable contract: the two falsiness guards (empty request fields,
lines 195-196, and empty parse results, lines 202-203) return an error
response with no records; otherwise the batched alignment runs and the
ordered record list is returned. The summary block of the response is a
pure function of the records and is not modelled. -/
def api_align_subtitles (p : Provider) (english_srt chinese_srt : String) :
    Except String (List ApiRecord) :=
  if english_srt = "" ∨ chinese_srt = "" then
    Except.error "Both English and Chinese SRT content required"
  else
    let english_subs := parse_srt english_srt
    let chinese_subs := parse_srt chinese_srt
    if english_subs = [] ∨ chinese_subs = [] then
      Except.error "Could not parse subtitles from provided content"
    else
      Except.ok (apiResults p english_subs chinese_subs)

/-! ## The FeedbackStore (specified component; not present in src)

The specification describes a FeedbackStore component (spec sections 2,
4.5 and 6) with record/submitFeedback and FIFO eviction at capacity. No
file under src implements it, so it is modelled from the specification
text here. -/

/-- Modelled from the spec: one confirmed feedback entry, with the
reference boost value 0.3 of spec section 4.3. The repository source has
no implementation of this type. -/
structure FeedbackEntry where
  sourceText : String
  targetText : String
  boost : ℚ
  deriving DecidableEq

/-- Modelled from the spec: record / submitFeedback of the FeedbackStore
(spec section 4.5): append an entry only when wasCorrect; when the store
then exceeds its capacity, evict the oldest entry (FIFO). The repository
source has no implementation of this operation. -/
def submitFeedback (capacity : ℕ) (sourceText targetText : String)
    (wasCorrect : Bool) (store : List FeedbackEntry) : List FeedbackEntry :=
  if wasCorrect then
    let store1 := store ++ [{ sourceText := sourceText, targetText := targetText, boost := 0.3 }]
    if capacity < store1.length then store1.drop 1 else store1
  else store

/-- N repetitions of submitFeedback with the same confirmed pair, from
the empty store: the scenario of the feedback idempotence property. -/
def iterateFeedback (capacity : ℕ) (a b : String) : ℕ → List FeedbackEntry
  | 0 => []
  | n + 1 => submitFeedback capacity a b true (iterateFeedback capacity a b n)

/-! ## Counting form of the lexical score (the wording of the spec)

The specification states the lexical score as a ratio of two counts over
the concept table: matches (a concept present on both sides) over
applicable concepts (present on at least one side). These are the
spec-side definitions compared with the loop of the source. -/

/-- Is the concept `pr` applicable to the pair of texts: does its English
key occur in the lowered English text, or any of its target surface forms
in the Chinese text? -/
def conceptEither (eng_lower chi_text : String) (pr : String × List String) : Bool :=
  containsSub eng_lower pr.1 || pr.2.any (fun cw => containsSub chi_text cw)

/-- Is the concept `pr` a match for the pair of texts: present on both
sides? -/
def conceptBoth (eng_lower chi_text : String) (pr : String × List String) : Bool :=
  containsSub eng_lower pr.1 && pr.2.any (fun cw => containsSub chi_text cw)

/-- Number of applicable concepts of a phrase table. -/
def countApplicable (table : List (String × List String)) (eng_text chi_text : String) : ℕ :=
  table.countP (conceptEither (pyLower eng_text) chi_text)

/-- Number of matched concepts of a phrase table. -/
def countMatches (table : List (String × List String)) (eng_text chi_text : String) : ℕ :=
  table.countP (conceptBoth (pyLower eng_text) chi_text)

/-! ## Helper lemmas -/

theorem calculate_match_score_nonneg (e c : Cue) : 0 ≤ calculate_match_score e c := by
  unfold calculate_match_score
  exact le_min (by norm_num) (le_max_left 0 _)

theorem calculate_match_score_le_one (e c : Cue) : calculate_match_score e c ≤ 1 :=
  min_le_left 1 _

theorem roundHalfEven_nonneg (q : ℚ) (h : 0 ≤ q) : 0 ≤ roundHalfEven q := by
  have hf : (0 : ℤ) ≤ ⌊q⌋ := Int.floor_nonneg.mpr h
  unfold roundHalfEven
  split
  · exact hf
  · split
    · omega
    · split <;> omega

theorem roundHalfEven_le (q : ℚ) (b : ℤ) (h : q ≤ (b : ℚ)) : roundHalfEven q ≤ b := by
  have hf : ⌊q⌋ ≤ b := by
    calc ⌊q⌋ ≤ ⌊(b : ℚ)⌋ := Int.floor_le_floor h
    _ = b := Int.floor_intCast b
  unfold roundHalfEven
  split
  · exact hf
  · rename_i h1
    push_neg at h1
    have hlt : ⌊q⌋ < b := by
      by_contra hc
      have heq : ⌊q⌋ = b := le_antisymm hf (by omega)
      have : q - (⌊q⌋ : ℚ) ≤ 0 := by
        rw [heq]; linarith
      linarith
    split
    · omega
    · split <;> omega

theorem pyRound_nonneg (n : ℕ) (q : ℚ) (h : 0 ≤ q) : 0 ≤ pyRound n q := by
  unfold pyRound
  have h10 : (0 : ℚ) < (10 : ℚ) ^ n := by positivity
  have := roundHalfEven_nonneg (q * (10 : ℚ) ^ n) (by positivity)
  apply div_nonneg _ (le_of_lt h10)
  exact_mod_cast this

theorem pyRound_le_one (n : ℕ) (q : ℚ) (h : q ≤ 1) : pyRound n q ≤ 1 := by
  unfold pyRound
  have h10 : (0 : ℚ) < (10 : ℚ) ^ n := by positivity
  have hb : q * (10 : ℚ) ^ n ≤ (((10 : ℕ) ^ n : ℤ) : ℚ) := by
    push_cast
    nlinarith
  have := roundHalfEven_le (q * (10 : ℚ) ^ n) ((10 : ℕ) ^ n : ℤ) hb
  rw [div_le_one h10]
  calc ((roundHalfEven (q * (10 : ℚ) ^ n) : ℤ) : ℚ) ≤ (((10 : ℕ) ^ n : ℤ) : ℚ) := by
        exact_mod_cast this
  _ = (10 : ℚ) ^ n := by push_cast; ring

theorem bestFoldAI_score_bounds (e : Cue) (l : List Cue) (acc : ℚ × Option Cue)
    (h0 : 0 ≤ acc.1) (h1 : acc.1 ≤ 1) :
    0 ≤ (bestFoldAI e l acc).1 ∧ (bestFoldAI e l acc).1 ≤ 1 := by
  induction l generalizing acc with
  | nil => exact ⟨h0, h1⟩
  | cons c rest ih =>
    simp only [bestFoldAI]
    split
    · exact ih _ (calculate_match_score_nonneg e c) (calculate_match_score_le_one e c)
    · exact ih _ h0 h1

theorem bestFoldAI_isSome (e : Cue) (l : List Cue) (acc : ℚ × Option Cue)
    (h : acc.2.isSome) : ((bestFoldAI e l acc).2).isSome := by
  induction l generalizing acc with
  | nil => exact h
  | cons c rest ih =>
    simp only [bestFoldAI]
    split
    · exact ih _ rfl
    · exact ih _ h

theorem bestFoldAI_none (e : Cue) (l : List Cue) (acc : ℚ × Option Cue)
    (h : (bestFoldAI e l acc).2 = none) : bestFoldAI e l acc = acc := by
  induction l generalizing acc with
  | nil => rfl
  | cons c rest ih =>
    by_cases hgt : calculate_match_score e c > acc.1
    · exfalso
      simp only [bestFoldAI, if_pos hgt] at h
      have := bestFoldAI_isSome e rest (calculate_match_score e c, some c) rfl
      rw [h] at this
      simp at this
    · simp only [bestFoldAI, if_neg hgt] at h ⊢
      exact ih acc h

theorem bestFoldAI_provenance (e : Cue) (l : List Cue) (acc : ℚ × Option Cue) :
    (bestFoldAI e l acc).2 = acc.2 ∨
      ∃ c ∈ l, (bestFoldAI e l acc).2 = some c := by
  induction l generalizing acc with
  | nil => exact Or.inl rfl
  | cons c rest ih =>
    simp only [bestFoldAI]
    split
    · rcases ih (calculate_match_score e c, some c) with h | ⟨c2, hc2, h⟩
      · exact Or.inr ⟨c, List.mem_cons_self c rest, h⟩
      · exact Or.inr ⟨c2, List.mem_cons_of_mem c hc2, h⟩
    · rcases ih acc with h | ⟨c2, hc2, h⟩
      · exact Or.inl h
      · exact Or.inr ⟨c2, List.mem_cons_of_mem c hc2, h⟩

theorem bestFoldApp_isSome (p : Provider) (e : Cue) (cs : List Cue)
    (l : List ℕ) (acc : ℚ × Option Cue) (h : acc.2.isSome) :
    ((bestFoldApp p e cs l acc).2).isSome := by
  induction l generalizing acc with
  | nil => exact h
  | cons i rest ih =>
    simp only [bestFoldApp]
    split
    · exact ih _ rfl
    · exact ih _ h

theorem bestFoldApp_none (p : Provider) (e : Cue) (cs : List Cue)
    (l : List ℕ) (acc : ℚ × Option Cue)
    (h : (bestFoldApp p e cs l acc).2 = none) : bestFoldApp p e cs l acc = acc := by
  induction l generalizing acc with
  | nil => rfl
  | cons i rest ih =>
    by_cases hgt : combined_score p e (cs.getD i default) > acc.1
    · exfalso
      simp only [bestFoldApp, if_pos hgt] at h
      have := bestFoldApp_isSome p e cs rest
        (combined_score p e (cs.getD i default), some (cs.getD i default)) rfl
      rw [h] at this
      simp at this
    · simp only [bestFoldApp, if_neg hgt] at h ⊢
      exact ih acc h

theorem bestFoldApp_provenance (p : Provider) (e : Cue) (cs : List Cue)
    (l : List ℕ) (acc : ℚ × Option Cue) :
    (bestFoldApp p e cs l acc).2 = acc.2 ∨
      ∃ i ∈ l, (bestFoldApp p e cs l acc).2 = some (cs.getD i default) := by
  induction l generalizing acc with
  | nil => exact Or.inl rfl
  | cons i rest ih =>
    simp only [bestFoldApp]
    split
    · rcases ih (combined_score p e (cs.getD i default), some (cs.getD i default)) with
        h | ⟨i2, hi2, h⟩
      · exact Or.inr ⟨i, List.mem_cons_self i rest, h⟩
      · exact Or.inr ⟨i2, List.mem_cons_of_mem i hi2, h⟩
    · rcases ih acc with h | ⟨i2, hi2, h⟩
      · exact Or.inl h
      · exact Or.inr ⟨i2, List.mem_cons_of_mem i hi2, h⟩

/-- The double batching loop visits exactly the indices of range(0, n):
the flat-mapped batches over range(i, min(i + 20, n)) with batch starts
range' i nB 20 cover range' i (n - i) once n ≤ i + 20 * nB. -/
theorem batches_cover (p : Provider) (es cs : List Cue) :
    ∀ (nB i : ℕ), es.length ≤ i + 20 * nB →
    (List.range' i nB 20).flatMap (fun j =>
        (List.range' j (min (j + 20) es.length - j)).map (alignOne p es cs)) =
      (List.range' i (es.length - i)).map (alignOne p es cs) := by
  intro nB
  induction nB with
  | zero =>
    intro i h
    simp only [Nat.mul_zero, Nat.add_zero] at h
    simp [List.range', Nat.sub_eq_zero_of_le h]
  | succ nB ih =>
    intro i h
    rw [List.range'_succ]
    simp only [List.flatMap_cons]
    rw [ih (i + 20) (by omega)]
    rw [← List.map_append]
    congr 1
    rcases Nat.le_total es.length (i + 20) with hle | hle
    · have h1 : min (i + 20) es.length = es.length := by omega
      have h2 : es.length - (i + 20) = 0 := by omega
      rw [h1, h2]
      simp [List.range']
    · have h1 : min (i + 20) es.length = i + 20 := by omega
      rw [h1]
      have h2 : i + 20 - i = 20 := by omega
      rw [h2]
      have h3 : es.length - i = es.length - (i + 20) + 20 := by omega
      rw [h3, ← List.range'_append_1 i 20 (es.length - (i + 20))]

/-- apiResults is the per-index alignment mapped over all source
indices. -/
theorem apiResults_eq_map (p : Provider) (es cs : List Cue) :
    apiResults p es cs = (List.range' 0 es.length).map (alignOne p es cs) := by
  unfold apiResults
  have hcover := batches_cover p es cs ((es.length + 20 - 1) / 20) 0 (by
    have := Nat.div_add_mod (es.length + 20 - 1) 20
    have : 20 * ((es.length + 20 - 1) / 20) ≥ es.length := by omega
    omega)
  simpa using hcover

theorem apiResults_length (p : Provider) (es cs : List Cue) :
    (apiResults p es cs).length = es.length := by
  rw [apiResults_eq_map]
  simp

theorem apiResults_getD (p : Provider) (es cs : List Cue) (i : ℕ)
    (h : i < es.length) :
    (apiResults p es cs).getD i default = alignOne p es cs i := by
  rw [apiResults_eq_map]
  rw [List.getD_eq_getElem?_getD, List.getElem?_map, List.getElem?_range']
  · simp
  · simpa using h

/-- The (matches, possible) loop of the source equals the two countP
counts of the spec wording, for any starting accumulator. -/
theorem phraseLoop_spec (el ct : String) (l : List (String × List String)) :
    ∀ a b : ℕ, phraseLoop el ct l (a, b) =
      (a + l.countP (conceptBoth el ct), b + l.countP (conceptEither el ct)) := by
  induction l with
  | nil => intro a b; simp [phraseLoop]
  | cons p rest ih =>
    intro a b
    cases heng : containsSub el p.1 <;>
      cases hchi : p.2.any (fun cw => containsSub ct cw) <;>
      simp only [phraseLoop, heng, hchi, Bool.false_or, Bool.or_false, Bool.true_or,
        Bool.or_true, Bool.false_and, Bool.and_false, Bool.true_and, Bool.and_true,
        if_true, if_false, Bool.false_eq_true, ih, List.countP_cons, conceptBoth,
        conceptEither] <;>
      simp [heng, hchi] <;> omega

/-- Applicable concepts dominate matched concepts. -/
theorem countMatches_le (table : List (String × List String)) (e c : String) :
    countMatches table e c ≤ countApplicable table e c := by
  unfold countMatches countApplicable
  apply List.countP_mono_left
  intro x _ h
  unfold conceptBoth at h
  unfold conceptEither
  rw [Bool.and_eq_true] at h
  rw [Bool.or_eq_true]
  exact Or.inl h.1

/-- Repeated confirmed feedback from the empty store is a replicate of
min n capacity entries. -/
theorem iterateFeedback_spec (cap : ℕ) (a b : String) :
    ∀ n, iterateFeedback cap a b n =
      List.replicate (min n cap) ⟨a, b, 0.3⟩ := by
  intro n
  induction n with
  | zero => simp [iterateFeedback]
  | succ n ih =>
    rw [iterateFeedback, ih]
    simp only [submitFeedback, if_true]
    rw [← List.replicate_succ']
    rcases Nat.lt_or_ge n cap with hlt | hge
    · have h1 : min n cap = n := by omega
      have h2 : min (n + 1) cap = n + 1 := by omega
      rw [h1, h2]
      rw [if_neg (by simp; omega)]
    · have h1 : min n cap = cap := by omega
      have h2 : min (n + 1) cap = cap := by omega
      rw [h1, h2]
      rw [if_pos (by simp)]
      rw [List.replicate_succ, List.drop_one, List.tail_cons]

theorem combined_score_congr (p q : Provider)
    (h : ∀ a b, semantic_similarity p a b = semantic_similarity q a b)
    (e c : Cue) : combined_score p e c = combined_score q e c := by
  unfold combined_score
  rw [h]

theorem bestFoldApp_congr (p q : Provider)
    (h : ∀ a b, semantic_similarity p a b = semantic_similarity q a b)
    (e : Cue) (cs : List Cue) (l : List ℕ) (acc : ℚ × Option Cue) :
    bestFoldApp p e cs l acc = bestFoldApp q e cs l acc := by
  induction l generalizing acc with
  | nil => rfl
  | cons i rest ih =>
    simp only [bestFoldApp, combined_score_congr p q h]
    exact ih _

theorem alignOne_congr (p q : Provider)
    (h : ∀ a b, semantic_similarity p a b = semantic_similarity q a b)
    (es cs : List Cue) (i : ℕ) : alignOne p es cs i = alignOne q es cs i := by
  simp only [alignOne, bestFoldApp_congr p q h]

theorem apiResults_congr (p q : Provider)
    (h : ∀ a b, semantic_similarity p a b = semantic_similarity q a b)
    (es cs : List Cue) : apiResults p es cs = apiResults q es cs := by
  rw [apiResults_eq_map, apiResults_eq_map]
  exact List.map_congr_left (fun i _ => alignOne_congr p q h es cs i)

theorem align_subtitles_length (es cs : List Cue) :
    (align_subtitles es cs).length = es.length := by
  simp [align_subtitles]

theorem align_subtitles_getD (es cs : List Cue) (i : ℕ) (h : i < es.length) :
    (align_subtitles es cs).getD i default =
      mk_aligned_pair (es.getD i default)
        (bestFoldAI (es.getD i default) cs (0, none)) := by
  unfold align_subtitles
  rw [List.getD_eq_getElem?_getD, List.getElem?_map, List.getElem?_eq_getElem h]
  rw [List.getD_eq_getElem?_getD, List.getElem?_eq_getElem h]
  simp

/-! ## The claims -/

/-- C1: for every source track and target track (in particular every
non-empty pair) both alignment operations return exactly one record per
source cue, and the records appear in source-track order: the record at
position i is built from the source cue at position i (same id, same
text). This covers SubtitleAI.align_subtitles of ai_model.py and the
batched loop of api_align_subtitles of app.py, for every similarity
provider. -/
theorem claim_c1_one_record_per_source (p : Provider)
    (english_subs chinese_subs : List Cue) :
    (align_subtitles english_subs chinese_subs).length = english_subs.length ∧
    (apiResults p english_subs chinese_subs).length = english_subs.length ∧
    ∀ i, i < english_subs.length →
      ((align_subtitles english_subs chinese_subs).getD i default).sequence
          = (english_subs.getD i default).id ∧
      ((align_subtitles english_subs chinese_subs).getD i default).english
          = (english_subs.getD i default).text ∧
      ((apiResults p english_subs chinese_subs).getD i default).sequence
          = (english_subs.getD i default).id ∧
      ((apiResults p english_subs chinese_subs).getD i default).english
          = (english_subs.getD i default).text := by
  refine ⟨align_subtitles_length _ _, apiResults_length _ _ _, ?_⟩
  intro i hi
  rw [align_subtitles_getD _ _ _ hi, apiResults_getD _ _ _ _ hi]
  exact ⟨rfl, rfl, rfl, rfl⟩

/-- Witness for C1 at a concrete one-cue pair of tracks. -/
theorem claim_c1_witness :
    0 < ([⟨1, "00:00:01,000", "a"⟩] : List Cue).length ∧
    (((align_subtitles [⟨1, "00:00:01,000", "a"⟩] [⟨1, "00:00:01,000", "b"⟩]).getD 0 default).sequence
        = (([⟨1, "00:00:01,000", "a"⟩] : List Cue).getD 0 default).id ∧
      ((align_subtitles [⟨1, "00:00:01,000", "a"⟩] [⟨1, "00:00:01,000", "b"⟩]).getD 0 default).english
        = (([⟨1, "00:00:01,000", "a"⟩] : List Cue).getD 0 default).text ∧
      ((apiResults (fun _ _ => none) [⟨1, "00:00:01,000", "a"⟩] [⟨1, "00:00:01,000", "b"⟩]).getD 0 default).sequence
        = (([⟨1, "00:00:01,000", "a"⟩] : List Cue).getD 0 default).id ∧
      ((apiResults (fun _ _ => none) [⟨1, "00:00:01,000", "a"⟩] [⟨1, "00:00:01,000", "b"⟩]).getD 0 default).english
        = (([⟨1, "00:00:01,000", "a"⟩] : List Cue).getD 0 default).text) :=
  ⟨by decide,
    (claim_c1_one_record_per_source (fun _ _ => none)
      [⟨1, "00:00:01,000", "a"⟩] [⟨1, "00:00:01,000", "b"⟩]).2.2 0 (by decide)⟩

/-- C2: every record of SubtitleAI.align_subtitles (the engine of
ai_model.py, the code the claim is stated about) has a confidence in
[0, 1], and every MISALIGNED record carries the NO MATCH placeholder in
both target fields. -/
theorem claim_c2_confidence_and_misaligned (english_subs chinese_subs : List Cue) :
    ∀ r ∈ align_subtitles english_subs chinese_subs,
      (0 ≤ r.confidence ∧ r.confidence ≤ 1) ∧
      (r.status = Status.MISALIGNED →
        r.chinese = "NO MATCH" ∧ r.chi_time = "NO MATCH") := by
  intro r hr
  unfold align_subtitles at hr
  rw [List.mem_map] at hr
  obtain ⟨e, he, rfl⟩ := hr
  have hb := bestFoldAI_score_bounds e chinese_subs (0, none) le_rfl zero_le_one
  refine ⟨⟨pyRound_nonneg 2 _ hb.1, pyRound_le_one 2 _ hb.2⟩, ?_⟩
  intro hstat
  by_cases h7 : (bestFoldAI e chinese_subs (0, none)).1 > 0.7
  · simp [mk_aligned_pair, ai_classify, if_pos h7] at hstat
  · by_cases h4 : (bestFoldAI e chinese_subs (0, none)).1 > 0.4
    · simp [mk_aligned_pair, ai_classify, if_neg h7, if_pos h4] at hstat
    · refine ⟨?_, ?_⟩ <;> simp [mk_aligned_pair, ai_classify, if_neg h7, if_neg h4]

/-- Witness for C2 at a concrete input whose single record is
MISALIGNED. -/
theorem claim_c2_witness :
    ((align_subtitles [⟨1, "a", "x"⟩] []).getD 0 default
        ∈ align_subtitles [⟨1, "a", "x"⟩] []) ∧
    (0 ≤ ((align_subtitles [⟨1, "a", "x"⟩] []).getD 0 default).confidence ∧
      ((align_subtitles [⟨1, "a", "x"⟩] []).getD 0 default).confidence ≤ 1) ∧
    (((align_subtitles [⟨1, "a", "x"⟩] []).getD 0 default).chinese = "NO MATCH" ∧
      ((align_subtitles [⟨1, "a", "x"⟩] []).getD 0 default).chi_time = "NO MATCH") :=
  ⟨by decide,
    (claim_c2_confidence_and_misaligned [⟨1, "a", "x"⟩] [] _ (by decide)).1,
    (claim_c2_confidence_and_misaligned [⟨1, "a", "x"⟩] [] _ (by decide)).2 (by decide)⟩

/-- C3: the aligner served by the API (app.py) bounds the candidate
search to target positions range(max(0, i - 15), min(len, i + 15)), so
with K = 15 (inside the reference range [10, 15]) every record that
carries a matched target carries a cue whose target-track position j
satisfies i - 15 ≤ j ≤ i + 15; otherwise both target fields are the
NO MATCH placeholder. A matched target outside the window is never
emitted. -/
theorem claim_c3_window (p : Provider) (english_subs chinese_subs : List Cue)
    (i : ℕ) :
    (∃ j, i ≤ j + 15 ∧ j ≤ i + 15 ∧ j < chinese_subs.length ∧
      (alignOne p english_subs chinese_subs i).chinese
          = (chinese_subs.getD j default).text ∧
      (alignOne p english_subs chinese_subs i).chi_time
          = (chinese_subs.getD j default).start) ∨
    ((alignOne p english_subs chinese_subs i).chinese = "NO MATCH" ∧
      (alignOne p english_subs chinese_subs i).chi_time = "NO MATCH") := by
  rcases bestFoldApp_provenance p (english_subs.getD i default) chinese_subs
      (List.range' (i - 15) (min chinese_subs.length (i + 15) - (i - 15))) (0, none) with
    hnone | ⟨j, hj, hsome⟩
  · right
    simp only [List.getD_eq_getElem?_getD] at hnone
    constructor <;> simp [alignOne, mk_api_record, hnone]
  · left
    rw [List.mem_range'] at hj
    obtain ⟨k, hk, rfl⟩ := hj
    refine ⟨i - 15 + 1 * k, by omega, by omega, by omega, ?_, ?_⟩ <;>
      · simp only [List.getD_eq_getElem?_getD] at hsome
        simp [alignOne, mk_api_record, hsome]

/-- C4 counterexample: in the end-to-end scenario of the spec (source cue
at 00:00:10,000 with text hello, single target cue at 00:00:10,500 with
text 你好) the engine of ai_model.py scores the pair 0.615, which does
not exceed the ALIGNED threshold 0.7, so the record status is REVIEW and
not ALIGNED as the claim states. -/
theorem claim_c4_counterexample :
    ((align_subtitles [⟨1, "00:00:10,000", "hello"⟩]
        [⟨1, "00:00:10,500", "你好"⟩]).getD 0 default).status = Status.REVIEW ∧
    ¬ ((align_subtitles [⟨1, "00:00:10,000", "hello"⟩]
        [⟨1, "00:00:10,500", "你好"⟩]).getD 0 default).status = Status.ALIGNED := by
  constructor <;> decide

/-- C4 amended: the scenario yields exactly one record, carrying the
target text 你好 and its start time, with status REVIEW: the score
(0.615 in exact rationals, the neighbouring double in the program) is
above the review threshold 0.4 but not above the aligned threshold 0.7,
and the stored two-decimal confidence also stays above the review
threshold. The exact rounded digits are not asserted: 0.615 is a halfway
point at two decimals, where the exact-rational rounding (0.62) and the
rounding of the program's double (0.61) differ by one unit in the last
place, on the same side of both thresholds. -/
theorem claim_c4_amended_review :
    (align_subtitles [⟨1, "00:00:10,000", "hello"⟩]
        [⟨1, "00:00:10,500", "你好"⟩]).length = 1 ∧
    ((align_subtitles [⟨1, "00:00:10,000", "hello"⟩]
        [⟨1, "00:00:10,500", "你好"⟩]).getD 0 default).status = Status.REVIEW ∧
    ((align_subtitles [⟨1, "00:00:10,000", "hello"⟩]
        [⟨1, "00:00:10,500", "你好"⟩]).getD 0 default).chinese = "你好" ∧
    ((align_subtitles [⟨1, "00:00:10,000", "hello"⟩]
        [⟨1, "00:00:10,500", "你好"⟩]).getD 0 default).chi_time = "00:00:10,500" ∧
    (0.4 : ℚ) < ((align_subtitles [⟨1, "00:00:10,000", "hello"⟩]
        [⟨1, "00:00:10,500", "你好"⟩]).getD 0 default).confidence := by
  refine ⟨by decide, by decide, by decide, by decide, by decide⟩

/-- C5 counterexample: time_to_seconds is not non-negative on every input
string: the sign accepted by int() makes "-1:00:00" convert to -3600. -/
theorem claim_c5_counterexample :
    time_to_seconds "-1:00:00" = -3600 ∧ time_to_seconds "-1:00:00" < 0 := by
  constructor <;> decide

/-- C5 amended: well-formed HH:MM:SS timestamps with comma or dot
fraction convert to their seconds offset (00:01:05,250 converts to
65.25); every parse failure returns 0 rather than raising; and the result
is non-negative whenever the three parsed fields are non-negative - but a
timestamp with a negative numeric field produces a negative result, so
non-negativity does not hold for every input string. -/
theorem claim_c5_to_seconds (s : String) (h m : ℤ) (sec : ℚ) :
    time_to_seconds "00:01:05,250" = 65.25 ∧
    (pyParseTime s = none → time_to_seconds s = 0) ∧
    (pyParseTime s = some (h, m, sec) →
      time_to_seconds s = (h : ℚ) * 3600 + (m : ℚ) * 60 + sec) ∧
    (pyParseTime s = some (h, m, sec) → 0 ≤ h → 0 ≤ m → 0 ≤ sec →
      0 ≤ time_to_seconds s) := by
  refine ⟨by decide, ?_, ?_, ?_⟩
  · intro hnone
    simp [time_to_seconds, hnone]
  · intro hsome
    simp [time_to_seconds, hsome]
  · intro hsome hh hm hs
    have heq : time_to_seconds s = (h : ℚ) * 3600 + (m : ℚ) * 60 + sec := by
      simp [time_to_seconds, hsome]
    rw [heq]
    have hh' : (0 : ℚ) ≤ (h : ℚ) := by exact_mod_cast hh
    have hm' : (0 : ℚ) ≤ (m : ℚ) := by exact_mod_cast hm
    nlinarith

/-- Witness for C5 at the well-formed spec example and at an unparsable
string. -/
theorem claim_c5_witness :
    (pyParseTime "garbage" = none ∧ time_to_seconds "garbage" = 0) ∧
    (pyParseTime "00:01:05,250" = some (0, 1, 5.25) ∧
      0 ≤ time_to_seconds "00:01:05,250") :=
  ⟨⟨by decide, (claim_c5_to_seconds "garbage" 0 0 0).2.1 (by decide)⟩,
    ⟨by decide, (claim_c5_to_seconds "00:01:05,250" 0 1 5.25).2.2.2
      (by decide) (by decide) (by decide) (by decide)⟩⟩

/-- C6: an empty source track or an empty target track makes the API
reject the request with an error and no records: whenever either SRT
payload parses to no cues (in particular when it is empty), the response
of api_align_subtitles is an error carrying no partial result, for every
provider. -/
theorem claim_c6_empty_track_error (p : Provider) (english_srt chinese_srt : String)
    (h : parse_srt english_srt = [] ∨ parse_srt chinese_srt = []) :
    ∃ msg, api_align_subtitles p english_srt chinese_srt = Except.error msg := by
  unfold api_align_subtitles
  by_cases h1 : english_srt = "" ∨ chinese_srt = ""
  · exact ⟨_, if_pos h1⟩
  · rw [if_neg h1]
    exact ⟨_, if_pos h⟩

/-- Witness for C6 at a concrete unparsable payload. -/
theorem claim_c6_witness :
    (parse_srt "x" = [] ∨ parse_srt "x" = []) ∧
    ∃ msg, api_align_subtitles (fun _ _ => none) "x" "x" = Except.error msg :=
  ⟨by decide, claim_c6_empty_track_error (fun _ _ => none) "x" "x" (by decide)⟩

/-- C7: when the similarity provider raises on every call (the always
none provider), the alignment of app.py still returns one record per
source cue and the result is identical to the alignment computed with the
lexical keyword fallback as the score, so the failure never escapes (the
embedding is a total function whose value is the fallback alignment). -/
theorem claim_c7_provider_failure (english_subs chinese_subs : List Cue) :
    (apiResults (fun _ _ => none) english_subs chinese_subs).length
        = english_subs.length ∧
    apiResults (fun _ _ => none) english_subs chinese_subs =
      apiResults (fun a b => some (keyword_similarity a b)) english_subs chinese_subs := by
  refine ⟨apiResults_length _ _ _, ?_⟩
  exact apiResults_congr (fun _ _ => none)
    (fun a b => some (keyword_similarity a b)) (fun a b => rfl)
    english_subs chinese_subs

/-- C8: both lexical scores of the repository (keyword_similarity of
app.py and calculate_critical_score of ai_model.py) equal the ratio
stated by the spec: concepts present on both sides divided by
max(concepts present on at least one side, 1), computed on the lowered
English text; in particular the score is 0, not 1, when no concept is
applicable. -/
theorem claim_c8_lexical_ratio (eng_text chi_text : String) :
    keyword_similarity eng_text chi_text =
      (countMatches keyword_pairs eng_text chi_text : ℚ) /
        ((max (countApplicable keyword_pairs eng_text chi_text) 1 : ℕ) : ℚ) ∧
    calculate_critical_score eng_text chi_text =
      (countMatches critical_phrases eng_text chi_text : ℚ) /
        ((max (countApplicable critical_phrases eng_text chi_text) 1 : ℕ) : ℚ) ∧
    (countApplicable keyword_pairs eng_text chi_text = 0 →
      keyword_similarity eng_text chi_text = 0) ∧
    (countApplicable critical_phrases eng_text chi_text = 0 →
      calculate_critical_score eng_text chi_text = 0) := by
  have hk : keyword_similarity eng_text chi_text =
      (countMatches keyword_pairs eng_text chi_text : ℚ) /
        ((max (countApplicable keyword_pairs eng_text chi_text) 1 : ℕ) : ℚ) := by
    unfold keyword_similarity countMatches countApplicable
    rw [phraseLoop_spec]
    simp
  have hc : calculate_critical_score eng_text chi_text =
      (countMatches critical_phrases eng_text chi_text : ℚ) /
        ((max (countApplicable critical_phrases eng_text chi_text) 1 : ℕ) : ℚ) := by
    unfold calculate_critical_score countMatches countApplicable
    rw [phraseLoop_spec]
    simp
  refine ⟨hk, hc, ?_, ?_⟩
  · intro h0
    have hm : countMatches keyword_pairs eng_text chi_text = 0 := by
      have := countMatches_le keyword_pairs eng_text chi_text
      omega
    rw [hk, hm]
    simp
  · intro h0
    have hm : countMatches critical_phrases eng_text chi_text = 0 := by
      have := countMatches_le critical_phrases eng_text chi_text
      omega
    rw [hc, hm]
    simp

/-- Witness for C8 at a pair of texts to which no concept applies. -/
theorem claim_c8_witness :
    (countApplicable keyword_pairs "zzz" "zzz" = 0 ∧
      keyword_similarity "zzz" "zzz" = 0) ∧
    (countApplicable critical_phrases "zzz" "zzz" = 0 ∧
      calculate_critical_score "zzz" "zzz" = 0) :=
  ⟨⟨by decide, (claim_c8_lexical_ratio "zzz" "zzz").2.2.1 (by decide)⟩,
    ⟨by decide, (claim_c8_lexical_ratio "zzz" "zzz").2.2.2 (by decide)⟩⟩

/-- C9: N confirmed submissions of the same pair with N above the
capacity leave the modelled FeedbackStore holding exactly capacity
entries, the most recent submissions, the oldest having been evicted
first. (The FeedbackStore exists only in the specification; the model is
built from its words.) -/
theorem claim_c9_feedback_capacity (capacity N : ℕ) (a b : String)
    (h : capacity < N) :
    (iterateFeedback capacity a b N).length = capacity ∧
    iterateFeedback capacity a b N =
      List.replicate capacity { sourceText := a, targetText := b, boost := 0.3 } := by
  have hs := iterateFeedback_spec capacity a b N
  have hmin : min N capacity = capacity := by omega
  rw [hs, hmin]
  simp

/-- Witness for C9 at capacity 2 and three submissions. -/
theorem claim_c9_witness :
    2 < 3 ∧
    ((iterateFeedback 2 "a" "b" 3).length = 2 ∧
      iterateFeedback 2 "a" "b" 3 =
        List.replicate 2 { sourceText := "a", targetText := "b", boost := 0.3 }) :=
  ⟨by decide, claim_c9_feedback_capacity 2 3 "a" "b" (by decide)⟩

/-- C10: in both aligners, every record classified ALIGNED or REVIEW
carries the text and start time of an actual cue of the target track:
since the best score starts at 0 and is only replaced by strictly greater
candidate scores, a status above the misaligned band forces a selected
candidate. -/
theorem claim_c10_aligned_has_target (p : Provider)
    (english_subs chinese_subs : List Cue) :
    (∀ r ∈ align_subtitles english_subs chinese_subs,
      r.status = Status.ALIGNED ∨ r.status = Status.REVIEW →
      ∃ c ∈ chinese_subs, r.chinese = c.text ∧ r.chi_time = c.start) ∧
    (∀ r ∈ apiResults p english_subs chinese_subs,
      r.status = Status.ALIGNED ∨ r.status = Status.REVIEW →
      ∃ c ∈ chinese_subs, r.chinese = c.text ∧ r.chi_time = c.start) := by
  constructor
  · intro r hr hstat
    unfold align_subtitles at hr
    rw [List.mem_map] at hr
    obtain ⟨e, he, rfl⟩ := hr
    have h04 : (bestFoldAI e chinese_subs (0, none)).1 > 0.4 := by
      by_contra hle
      have h7 : ¬ (bestFoldAI e chinese_subs (0, none)).1 > 0.7 := by
        intro hx
        apply hle
        norm_num at hx ⊢
        linarith
      have hmis : (mk_aligned_pair e (bestFoldAI e chinese_subs (0, none))).status
          = Status.MISALIGNED := by
        simp [mk_aligned_pair, ai_classify, if_neg h7, if_neg hle]
      rcases hstat with hx | hx <;> rw [hmis] at hx <;> exact absurd hx (by decide)
    rcases bestFoldAI_provenance e chinese_subs (0, none) with hpn | ⟨c2, hc2, hs2⟩
    · exfalso
      have heq := bestFoldAI_none e chinese_subs (0, none) hpn
      rw [heq] at h04
      norm_num at h04
    · refine ⟨c2, hc2, ?_, ?_⟩ <;>
        by_cases h7 : (bestFoldAI e chinese_subs (0, none)).1 > 0.7
      · simp [mk_aligned_pair, ai_classify, if_pos h7, hs2]
      · simp [mk_aligned_pair, ai_classify, if_neg h7, if_pos h04, hs2]
      · simp [mk_aligned_pair, ai_classify, if_pos h7, hs2]
      · simp [mk_aligned_pair, ai_classify, if_neg h7, if_pos h04, hs2]
  · intro r hr hstat
    rw [apiResults_eq_map, List.mem_map] at hr
    obtain ⟨i, hi, rfl⟩ := hr
    have h05 : (bestFoldApp p (english_subs.getD i default) chinese_subs
        (List.range' (i - 15) (min chinese_subs.length (i + 15) - (i - 15)))
        (0, none)).1 > 0.5 := by
      by_contra hle
      have h7 : ¬ (bestFoldApp p (english_subs.getD i default) chinese_subs
          (List.range' (i - 15) (min chinese_subs.length (i + 15) - (i - 15)))
          (0, none)).1 > 0.7 := by
        intro hx
        apply hle
        norm_num at hx ⊢
        linarith
      have hmis : (alignOne p english_subs chinese_subs i).status
          = Status.MISALIGNED := by
        simp only [alignOne, mk_api_record, app_classify,
          List.getD_eq_getElem?_getD] at h7 hle ⊢
        rw [if_neg h7, if_neg hle]
      rcases hstat with hx | hx <;> rw [hmis] at hx <;> exact absurd hx (by decide)
    rcases bestFoldApp_provenance p (english_subs.getD i default) chinese_subs
        (List.range' (i - 15) (min chinese_subs.length (i + 15) - (i - 15)))
        (0, none) with hpn | ⟨j, hj, hs2⟩
    · exfalso
      have heq := bestFoldApp_none p (english_subs.getD i default) chinese_subs
        (List.range' (i - 15) (min chinese_subs.length (i + 15) - (i - 15)))
        (0, none) hpn
      rw [heq] at h05
      norm_num at h05
    · have hjlen : j < chinese_subs.length := by
        rw [List.mem_range'] at hj
        obtain ⟨k, hk, rfl⟩ := hj
        omega
      have hmem : chinese_subs.getD j default ∈ chinese_subs := by
        rw [List.getD_eq_getElem?_getD, List.getElem?_eq_getElem hjlen]
        exact List.getElem_mem hjlen
      refine ⟨chinese_subs.getD j default, hmem, ?_, ?_⟩ <;>
        · simp only [List.getD_eq_getElem?_getD] at hs2
          simp [alignOne, mk_api_record, hs2]

/-- Witness for C10: the spec scenario cue pair yields a REVIEW record in
the ai_model.py engine, and an always-1 provider yields an ALIGNED record
in the app.py engine; both carry the target cue. -/
theorem claim_c10_witness :
    ((align_subtitles [⟨1, "00:00:10,000", "hello"⟩] [⟨1, "00:00:10,500", "你好"⟩]).getD 0 default
        ∈ align_subtitles [⟨1, "00:00:10,000", "hello"⟩] [⟨1, "00:00:10,500", "你好"⟩]) ∧
    (∃ c ∈ ([⟨1, "00:00:10,500", "你好"⟩] : List Cue),
      ((align_subtitles [⟨1, "00:00:10,000", "hello"⟩] [⟨1, "00:00:10,500", "你好"⟩]).getD 0 default).chinese = c.text ∧
      ((align_subtitles [⟨1, "00:00:10,000", "hello"⟩] [⟨1, "00:00:10,500", "你好"⟩]).getD 0 default).chi_time = c.start) ∧
    (∃ c ∈ ([⟨1, "00:00:01,000", "b"⟩] : List Cue),
      ((apiResults (fun _ _ => some 1) [⟨1, "00:00:01,000", "a"⟩] [⟨1, "00:00:01,000", "b"⟩]).getD 0 default).chinese = c.text ∧
      ((apiResults (fun _ _ => some 1) [⟨1, "00:00:01,000", "a"⟩] [⟨1, "00:00:01,000", "b"⟩]).getD 0 default).chi_time = c.start) :=
  ⟨by decide,
    (claim_c10_aligned_has_target (fun _ _ => some 1)
      [⟨1, "00:00:10,000", "hello"⟩] [⟨1, "00:00:10,500", "你好"⟩]).1 _ (by decide) (by decide),
    (claim_c10_aligned_has_target (fun _ _ => some 1)
      [⟨1, "00:00:01,000", "a"⟩] [⟨1, "00:00:01,000", "b"⟩]).2 _ (by decide) (by decide)⟩
